import Mathlib

/-!
Verification of the loss registry / custom losses (`pytorch_widedeep/losses.py`)
and the model composer (`pytorch_widedeep/models/wide_deep.py`).

Tensors are modelled as lists (a matrix is a list of rows); float arithmetic is
modelled by exact arithmetic (`ℚ` for the composer and registry, `ℝ` with real
`log` / `exp` / `sqrt` for the numerically subtle losses).  Python exceptions
are modelled with an explicit error type and `Except`.
-/

/-- Python exceptions that the modelled code can raise. -/
inductive PyErr
  | keyError
  | indexError
  | assertionError
  | attributeError
  | valueError
  | typeError
  deriving DecidableEq

/-! ## Loss registry (`losses.py`, lines 9-85) -/

/-- `method_to_objec` dictionary from `losses.py` (insertion order kept). -/
def method_to_objec : List (String × List String) :=
  [("binary",
    ["binary", "logistic", "binary_logloss", "binary_cross_entropy",
     "binary_focal_loss"]),
   ("multiclass",
    ["multiclass", "multi_logloss", "cross_entropy",
     "categorical_cross_entropy", "multiclass_focal_loss"]),
   ("regression",
    ["regression", "mse", "l2", "mean_squared_error", "mean_absolute_error",
     "mae", "l1", "mean_squared_log_error", "msle", "root_mean_squared_error",
     "rmse", "root_mean_squared_log_error", "rmsle"])]

/-- `objective_to_method`: the dict comprehension inverting `method_to_objec`.
Its keys (in insertion order) are the full objective vocabulary. -/
def objective_to_method : List (String × String) :=
  (method_to_objec.map (fun p => p.2.map (fun o => (o, p.1)))).flatten

/-- `objective_to_method.keys()`: the objective-name vocabulary. -/
def objectiveVocab : List String := objective_to_method.map (fun p => p.1)

/-- `loss_aliases` dictionary from `losses.py`. -/
def loss_aliases : List (String × List String) :=
  [("binary", ["binary", "logistic", "binary_logloss", "binary_cross_entropy"]),
   ("multiclass",
    ["multiclass", "multi_logloss", "cross_entropy",
     "categorical_cross_entropy"]),
   ("regression", ["regression", "mse", "l2", "mean_squared_error"]),
   ("mean_absolute_error", ["mean_absolute_error", "mae", "l1"]),
   ("mean_squared_log_error", ["mean_squared_log_error", "msle"]),
   ("root_mean_squared_error", ["root_mean_squared_error", "rmse"]),
   ("root_mean_squared_log_error", ["root_mean_squared_log_error", "rmsle"])]

/-- Lookup in `loss_aliases` (every key used by the code is present). -/
def lossAliasesAt (k : String) : List String := (loss_aliases.lookup k).getD []

/-- The `**kwargs` mapping passed to `get_loss_function`: each registry-relevant
key is either absent (`none`) or present with a value.  The `weight` value is
itself an optional tensor (Python `None` or a tensor, modelled as `List ℚ`). -/
structure LossKwargs where
  weight : Option (Option (List ℚ))
  alpha : Option ℚ
  gamma : Option ℚ
  deriving DecidableEq

/-- Kwargs with no keys at all. -/
def LossKwargs.empty : LossKwargs := ⟨none, none, none⟩

/-- The loss object returned by `get_loss_function`: which constructor was
called and with which configuration. -/
inductive LossObj
  | bceWithLogits (weight : Option (List ℚ))
  | crossEntropy (weight : Option (List ℚ))
  | mseLoss
  | l1Loss
  | msleLoss
  | rmseLoss
  | rmsleLoss
  | focalLoss (alpha gamma : ℚ)
  deriving DecidableEq

/-- `FocalLoss(**kwargs)`: `__init__(alpha=0.25, gamma=1.0)` accepts only the
`alpha` and `gamma` keywords; an unexpected keyword (e.g. `weight`) raises
`TypeError`. -/
def focalLossFromKwargs (kw : LossKwargs) : Except PyErr LossObj :=
  if kw.weight.isSome then Except.error PyErr.typeError
  else Except.ok (LossObj.focalLoss (kw.alpha.getD (1/4)) (kw.gamma.getD 1))

/-- `kwargs["weight"]`: raises `KeyError` when the key is absent. -/
def kwargsWeight (kw : LossKwargs) : Except PyErr (Option (List ℚ)) :=
  match kw.weight with
  | some w => Except.ok w
  | none => Except.error PyErr.keyError

/-- `get_loss_function` from `losses.py` lines 63-85.  A name outside the
vocabulary raises `ValueError` (the `UnsupportedObjective` of the spec); a name
that matches none of the `if` branches falls off the end of the Python
function, returning the implicit `None`, modelled as `Except.ok none`. -/
def get_loss_function (kw : LossKwargs) (loss_fn : String) :
    Except PyErr (Option LossObj) :=
  if loss_fn ∈ objectiveVocab then
    if loss_fn ∈ lossAliasesAt "binary" then
      (kwargsWeight kw).map (fun w => some (LossObj.bceWithLogits w))
    else if loss_fn ∈ lossAliasesAt "multiclass" then
      (kwargsWeight kw).map (fun w => some (LossObj.crossEntropy w))
    else if loss_fn ∈ lossAliasesAt "regression" then
      Except.ok (some LossObj.mseLoss)
    else if loss_fn ∈ lossAliasesAt "mean_absolute_error" then
      Except.ok (some LossObj.l1Loss)
    else if loss_fn ∈ lossAliasesAt "mean_squared_log_error" then
      Except.ok (some LossObj.msleLoss)
    else if loss_fn ∈ lossAliasesAt "root_mean_squared_error" then
      Except.ok (some LossObj.rmseLoss)
    else if loss_fn ∈ lossAliasesAt "root_mean_squared_log_error" then
      Except.ok (some LossObj.rmsleLoss)
    else if "focal_loss".toList <:+: loss_fn.toList then
      (focalLossFromKwargs kw).map (fun l => some l)
    else Except.ok none
  else Except.error PyErr.valueError

/-! ## Custom losses (`losses.py`, lines 88-179), over ℝ

Float tensors are modelled as lists of reals (a 2-d tensor as a list of rows);
`torch.sigmoid`, `torch.log`, `torch.sqrt` and float `pow` are modelled by the
real functions.  `.detach()` only affects the autodiff graph, so at value
level it is the identity and is dropped. -/

/-- Elementwise `torch.sigmoid`. -/
noncomputable def sigmoid (x : ℝ) : ℝ := 1 / (1 + Real.exp (-x))

/-- Map a scalar function over a 2-d tensor. -/
def matMap (f : ℝ → ℝ) (m : List (List ℝ)) : List (List ℝ) := m.map (List.map f)

/-- Elementwise combination of two same-shape 2-d tensors. -/
def zipWith2D (f : ℝ → ℝ → ℝ) (a b : List (List ℝ)) : List (List ℝ) :=
  List.zipWith (List.zipWith f) a b

/-- Three-way elementwise zip on lists. -/
def zipWith3 (f : ℝ → ℝ → ℝ → ℝ) : List ℝ → List ℝ → List ℝ → List ℝ
  | a :: as, b :: bs, c :: cs => f a b c :: zipWith3 f as bs cs
  | _, _, _ => []

/-- Three-way elementwise combination of 2-d tensors. -/
def zipWith2D3 (f : ℝ → ℝ → ℝ → ℝ) :
    List (List ℝ) → List (List ℝ) → List (List ℝ) → List (List ℝ)
  | a :: as, b :: bs, c :: cs => zipWith3 f a b c :: zipWith2D3 f as bs cs
  | _, _, _ => []

/-- Sum of all elements of a 2-d tensor. -/
def matSum (m : List (List ℝ)) : ℝ := (m.map List.sum).sum

/-- `numel`: total number of elements of a 2-d tensor. -/
def matNumel (m : List (List ℝ)) : ℕ := (m.map List.length).sum

/-- Mean over all elements (torch reduction `mean`). -/
noncomputable def matMean (m : List (List ℝ)) : ℝ := matSum m / matNumel m

/-- Row `lab` of `torch.eye(n)`: the one-hot vector of length `n`. -/
def eyeRow (n : ℕ) (lab : ℕ) : List ℝ :=
  (List.range n).map (fun j => if j = lab then 1 else 0)

/-- `F.binary_cross_entropy(input, target, weight, reduction="mean")`:
mean over all elements of `-(w * (t * log p + (1 - t) * log (1 - p)))`. -/
noncomputable def binary_cross_entropy (input target weight : List (List ℝ)) : ℝ :=
  matMean (zipWith2D3
    (fun p t w => -(w * (t * Real.log p + (1 - t) * Real.log (1 - p))))
    input target weight)

/-- `FocalLoss` module state: the `alpha` and `gamma` hyperparameters
(`losses.py` lines 101-104, defaults `0.25` and `1.0`). -/
structure FocalLoss where
  alpha : ℝ
  gamma : ℝ

/-- `FocalLoss._get_weight` (`losses.py` lines 106-109): elementwise
`(alpha*t + (1-alpha)*(1-t)) * (1 - (p*t + (1-p)*(1-t)))^gamma`, detached. -/
noncomputable def FocalLoss.get_weight (s : FocalLoss) (p t : List (List ℝ)) :
    List (List ℝ) :=
  zipWith2D
    (fun p t =>
      (s.alpha * t + (1 - s.alpha) * (1 - t)) *
        (1 - (p * t + (1 - p) * (1 - t))) ^ s.gamma)
    p t

/-- `FocalLoss.forward` (`losses.py` lines 111-152).  `target` is the integer
class-label vector (`target.squeeze().long()`); `input.size(1)` is the length
of the first row (the batch is assumed non-empty and rectangular). -/
noncomputable def FocalLoss.forward (s : FocalLoss) (input : List (List ℝ))
    (target : List ℕ) : ℝ :=
  let input_prob := matMap sigmoid input
  let sz1 := (input.headD []).length
  let input_prob :=
    if sz1 = 1 then input_prob.map (fun r => r.map (fun p => 1 - p) ++ r)
    else input_prob
  let num_class := if sz1 = 1 then 2 else sz1
  let binary_target := target.map (eyeRow num_class)
  let weight := s.get_weight input_prob binary_target
  binary_cross_entropy input_prob binary_target weight

/-- `nn.MSELoss()` applied to two same-shape tensors, flattened to lists:
mean of squared differences. -/
noncomputable def MSELoss (input target : List ℝ) : ℝ :=
  ((input.zipWith (fun a b => (a - b) ^ 2) target).sum) /
    ((input.zipWith (fun a b => (a - b) ^ 2) target).length)

/-- `MSLELoss.forward` (`losses.py` lines 155-161). -/
noncomputable def MSLELoss (input target : List ℝ) : ℝ :=
  MSELoss (input.map (fun x => Real.log (x + 1)))
    (target.map (fun x => Real.log (x + 1)))

/-- `RMSELoss.forward` (`losses.py` lines 164-170). -/
noncomputable def RMSELoss (input target : List ℝ) : ℝ :=
  Real.sqrt (MSELoss input target)

/-- `RMSLELoss.forward` (`losses.py` lines 173-179). -/
noncomputable def RMSLELoss (input target : List ℝ) : ℝ :=
  Real.sqrt (MSELoss (input.map (fun x => Real.log (x + 1)))
    (target.map (fun x => Real.log (x + 1))))

/-- The binary focal-loss computation exactly as the specification words it:
2-column probability matrix with class-1 column `sigmoid(logit)` and class-0
column `1 - sigmoid(logit)`, one-hot target, modulating weight
`(alpha*t + (1-alpha)*(1-t)) * (1 - (p*t + (1-p)*(1-t)))^gamma`, and the mean
over all elements of the weighted binary cross-entropy. -/
noncomputable def focalBinaryAsSpecified (alpha gamma : ℝ) (logits : List ℝ)
    (target : List ℕ) : ℝ :=
  let p := logits.map (fun x => [1 - sigmoid x, sigmoid x])
  let t := target.map
    (fun l => [if l = 0 then (1 : ℝ) else 0, if l = 1 then 1 else 0])
  let w := zipWith2D
    (fun p t =>
      (alpha * t + (1 - alpha) * (1 - t)) *
        (1 - (p * t + (1 - p) * (1 - t))) ^ gamma)
    p t
  matMean (zipWith2D3
    (fun p t w => -(w * (t * Real.log p + (1 - t) * Real.log (1 - p))))
    p t w)

/-! ## Model composer (`models/wide_deep.py`), over ℚ

Branch components are black boxes: a function from a batch tensor to an
activation tensor plus the attributes the composer reads.  Tensors are
`List (List ℚ)` (rows).  The randomly initialised parameters of every
`nn.Linear` the composer itself creates are explicit inputs: the build-time
ones are arguments of `WideDeep.build`, and the `nn.Linear` freshly created
inside `forward` (line 215 of `wide_deep.py`) is an argument of
`WideDeep.forward`, one sample per call. -/

/-- A 2-d float tensor over exact arithmetic: a list of rows. -/
abbrev Mat : Type := List (List ℚ)

/-- Parameters of an `nn.Linear` layer: `weight` has one row per output
feature, `bias` one entry per output feature. -/
structure LinLayer where
  weight : Mat
  bias : List ℚ
  deriving DecidableEq

/-- Dot product of two vectors (`torch` matmul inner step). -/
def dot (a b : List ℚ) : ℚ := (List.zipWith (fun x y => x * y) a b).sum

/-- Apply an `nn.Linear` to a batch: `y = x Wᵀ + b` row by row. -/
def linApply (L : LinLayer) (x : Mat) : Mat :=
  x.map (fun row => List.zipWith (fun wr b => dot wr row + b) L.weight L.bias)

/-- `torch.zeros(bs, pd)`. -/
def zeroMat (bs pd : ℕ) : Mat := List.replicate bs (List.replicate pd 0)

/-- In-place tensor addition `a.add_(b)` (same-shape operands). -/
def matAdd (a b : Mat) : Mat := List.zipWith (List.zipWith (fun x y => x + y)) a b

/-- `torch.cat([a, b], axis=1)`: rows are concatenated featurewise. -/
def matConcatCols (a b : Mat) : Mat := List.zipWith (fun r s => r ++ s) a b

/-- `torch.cat` where the left operand may be the initial empty
`torch.FloatTensor()` placeholder (`wide_deep.py` line 209), which
concatenates away. -/
def catColsO : Option Mat → Mat → Mat
  | none, y => y
  | some x, y => matConcatCols x y

/-- The `wide` component as the composer sees it: a callable plus the
`wide_linear.weight.size(1)` attribute read by the build-time check. -/
structure WideComponent where
  forward : Mat → Mat
  wide_linear_weight_size1 : ℕ

/-- Modelled from the spec: the `Wide` class itself is outside the analysed
sources; per the spec the wide branch `produces final-width predictions
directly` and the composer's check reads `wide.wide_linear.weight.size(1)` as
that declared final output width. -/
def WideComponent.finalOutputWidth (w : WideComponent) : ℕ :=
  w.wide_linear_weight_size1

/-- A deep branch component (`deeptabular`, `deeptext`, `deepimage`): a
callable plus the `output_dim` attribute, which a user-supplied module may
lack (`none` models a missing attribute). -/
structure DeepComponent where
  forward : Mat → Mat
  output_dim : Option ℕ

/-- A user-supplied `deephead`: a callable plus the width
`next(deephead.parameters()).size(1)` read by the build-time check. -/
structure UserHead where
  forward : Mat → Mat
  firstParamSize1 : ℕ

/-- `output_dim` contribution of an optional branch as summed by
`_check_model_components` and by the declarative-head construction (the
attribute is only read after its presence was checked). -/
def odSum : Option DeepComponent → ℕ
  | some c => c.output_dim.getD 0
  | none => 0

/-- The wide-width `assert` (`wide_deep.py` lines 237-243): a failing Python
`assert` raises `AssertionError`. -/
def checkWide (wide : Option WideComponent) (pred_dim : ℕ) : Except PyErr Unit :=
  match wide with
  | some w =>
      if w.wide_linear_weight_size1 = pred_dim then Except.ok ()
      else Except.error PyErr.assertionError
  | none => Except.ok ()

/-- The `output_dim`-attribute check for one deep branch (`wide_deep.py`
lines 244-258): `AttributeError` when the attribute is missing. -/
def checkOutputDim (c : Option DeepComponent) : Except PyErr Unit :=
  match c with
  | some c =>
      if c.output_dim.isSome then Except.ok ()
      else Except.error PyErr.attributeError
  | none => Except.ok ()

/-- The conflicting-head check (`wide_deep.py` lines 259-262). -/
def checkHeadConflict (deephead : Option UserHead)
    (head_layers_dim : Option (List ℕ)) : Except PyErr Unit :=
  if deephead.isSome ∧ head_layers_dim.isSome then Except.error PyErr.valueError
  else Except.ok ()

/-- The head-needs-a-deep-branch check (`wide_deep.py` lines 263-271). -/
def checkHeadNeedsDeep (head_layers_dim : Option (List ℕ))
    (deeptabular deeptext deepimage : Option DeepComponent) :
    Except PyErr Unit :=
  if head_layers_dim.isSome ∧ deeptabular.isNone ∧ deeptext.isNone ∧
      deepimage.isNone then
    Except.error PyErr.valueError
  else Except.ok ()

/-- The user-head input-width `assert` (`wide_deep.py` lines 272-286). -/
def checkHeadDims (deephead : Option UserHead)
    (deeptabular deeptext deepimage : Option DeepComponent) :
    Except PyErr Unit :=
  match deephead with
  | some h =>
      if h.firstParamSize1 =
          odSum deeptabular + odSum deeptext + odSum deepimage then
        Except.ok ()
      else Except.error PyErr.assertionError
  | none => Except.ok ()

/-- `WideDeep._check_model_components` (`wide_deep.py` lines 226-286): the
five checks in source order, short-circuiting at the first failure. -/
def checkModelComponents (wide : Option WideComponent)
    (deeptabular deeptext deepimage : Option DeepComponent)
    (deephead : Option UserHead) (head_layers_dim : Option (List ℕ))
    (pred_dim : ℕ) : Except PyErr Unit := do
  checkWide wide pred_dim
  checkOutputDim deeptabular
  checkOutputDim deeptext
  checkOutputDim deepimage
  checkHeadConflict deephead head_layers_dim
  checkHeadNeedsDeep head_layers_dim deeptabular deeptext deepimage
  checkHeadDims deephead deeptabular deeptext deepimage

/-- The composed model after `WideDeep.__init__`: `pred_dim` plus the five
(possibly wrapped) callables. -/
structure WideDeep where
  pred_dim : ℕ
  wide : Option (Mat → Mat)
  deeptabular : Option (Mat → Mat)
  deeptext : Option (Mat → Mat)
  deepimage : Option (Mat → Mat)
  deephead : Option (Mat → Mat)

/-- `WideDeep.__init__` (`wide_deep.py` lines 121-192).  `mlp` is the external
`MLP` module constructor imported from `tab_mlp` (not among the analysed
sources), abstracted as an opaque function of the layer-width list; the
activation / dropout / batchnorm configuration is fixed inside it.  `headOut`
holds the parameters of the `head_out` linear layer created at line 177,
and `tabProj` / `textProj` / `imgProj` those of the per-branch projection
layers created at lines 181-192. -/
def WideDeep.build (wide : Option WideComponent)
    (deeptabular deeptext deepimage : Option DeepComponent)
    (deephead : Option UserHead) (head_layers_dim : Option (List ℕ))
    (mlp : List ℕ → Mat → Mat) (headOut : LinLayer)
    (tabProj textProj imgProj : LinLayer) (pred_dim : ℕ) :
    Except PyErr WideDeep := do
  checkModelComponents wide deeptabular deeptext deepimage deephead
    head_layers_dim pred_dim
  match deephead with
  | some h =>
      pure ⟨pred_dim, wide.map (fun w => w.forward),
        deeptabular.map (fun c => c.forward), deeptext.map (fun c => c.forward),
        deepimage.map (fun c => c.forward), some h.forward⟩
  | none =>
    match head_layers_dim with
    | some hs =>
        let deep_dim := odSum deeptabular + odSum deeptext + odSum deepimage
        pure ⟨pred_dim, wide.map (fun w => w.forward),
          deeptabular.map (fun c => c.forward),
          deeptext.map (fun c => c.forward),
          deepimage.map (fun c => c.forward),
          some (fun x => linApply headOut (mlp (deep_dim :: hs) x))⟩
    | none =>
        pure ⟨pred_dim, wide.map (fun w => w.forward),
          deeptabular.map (fun c x => linApply tabProj (c.forward x)),
          deeptext.map (fun c x => linApply textProj (c.forward x)),
          deepimage.map (fun c x => linApply imgProj (c.forward x)),
          none⟩

/-- `X["k"]` on the batch mapping: `KeyError` when the key is absent.  The
mapping is an association list in Python-dict insertion order. -/
def lookupX (X : List (String × Mat)) (k : String) : Except PyErr Mat :=
  match X.lookup k with
  | some v => Except.ok v
  | none => Except.error PyErr.keyError

/-- `WideDeep.forward` (`wide_deep.py` lines 194-224).  `fresh` holds the
randomly initialised parameters of the `nn.Linear` created at line 215 during
this call. -/
def WideDeep.forward (m : WideDeep) (fresh : LinLayer)
    (X : List (String × Mat)) : Except PyErr Mat := do
  let out ← (match m.wide with
    | some w => (lookupX X "wide").map w
    | none =>
        match X with
        | [] => Except.error PyErr.indexError
        | (_, v) :: _ => Except.ok (zeroMat v.length m.pred_dim))
  match m.deephead with
  | some h => do
      let ds ← (match m.deeptabular with
        | some f => (lookupX X "deeptabular").map (fun x => some (f x))
        | none => Except.ok (none : Option Mat))
      let ds ← (match m.deeptext with
        | some f => (lookupX X "deeptext").map (fun x => some (catColsO ds (f x)))
        | none => Except.ok ds)
      let ds ← (match m.deepimage with
        | some f => (lookupX X "deepimage").map (fun x => some (catColsO ds (f x)))
        | none => Except.ok ds)
      let deephead_out := h (ds.getD [])
      Except.ok (matAdd out (linApply fresh deephead_out))
  | none => do
      let out ← (match m.deeptabular with
        | some f => (lookupX X "deeptabular").map (fun x => matAdd out (f x))
        | none => Except.ok out)
      let out ← (match m.deeptext with
        | some f => (lookupX X "deeptext").map (fun x => matAdd out (f x))
        | none => Except.ok out)
      let out ← (match m.deepimage with
        | some f => (lookupX X "deepimage").map (fun x => matAdd out (f x))
        | none => Except.ok out)
      Except.ok out

/-! ## Theorems about the loss registry -/

/-- C9: `get_loss_function` is total over the objective vocabulary — for every
vocabulary name some dispatch branch is taken, never the implicit `None`
fall-through at the end of the Python function; in particular
`binary_focal_loss` and `multiclass_focal_loss`, which appear in no
`loss_aliases` routing list, resolve via the `focal_loss` substring fallback
to a `FocalLoss` with the defaults `alpha = 0.25` and `gamma = 1.0`. -/
theorem get_loss_function_total :
    (∀ name ∈ objectiveVocab, ∀ kw : LossKwargs,
        get_loss_function kw name ≠ Except.ok none) ∧
    get_loss_function LossKwargs.empty "binary_focal_loss" =
      Except.ok (some (LossObj.focalLoss (1/4) 1)) ∧
    get_loss_function LossKwargs.empty "multiclass_focal_loss" =
      Except.ok (some (LossObj.focalLoss (1/4) 1)) := by
  refine ⟨?_, rfl, rfl⟩
  intro name hmem kw
  have hvocab : objectiveVocab =
      ["binary", "logistic", "binary_logloss", "binary_cross_entropy",
       "binary_focal_loss", "multiclass", "multi_logloss", "cross_entropy",
       "categorical_cross_entropy", "multiclass_focal_loss", "regression",
       "mse", "l2", "mean_squared_error", "mean_absolute_error", "mae", "l1",
       "mean_squared_log_error", "msle", "root_mean_squared_error", "rmse",
       "root_mean_squared_log_error", "rmsle"] := rfl
  rw [hvocab] at hmem
  fin_cases hmem <;>
    rcases hw : kw.weight with _ | w <;>
      simp +decide [get_loss_function, kwargsWeight, focalLossFromKwargs,
        Except.map, hw]

/-- C9 witness: the totality statement applied at the concrete name `mse`
with empty kwargs. -/
theorem get_loss_function_total_witness :
    get_loss_function LossKwargs.empty "mse" ≠ Except.ok none :=
  get_loss_function_total.1 "mse" (by decide) LossKwargs.empty

/-- C3 counterexample: with the `weight` key absent from the config, the
binary alias `binary` raises `KeyError` instead of returning the unweighted
loss, and (with the key present) the vocabulary name `binary_focal_loss`
raises `TypeError`; so not every vocabulary name returns a loss object
without raising, and the weight may not simply be absent. -/
theorem get_loss_function_weight_cex :
    get_loss_function LossKwargs.empty "binary" = Except.error PyErr.keyError ∧
    get_loss_function ⟨some none, none, none⟩ "binary_focal_loss" =
      Except.error PyErr.typeError :=
  ⟨rfl, rfl⟩

/-- C3 amended: every vocabulary name resolves to a loss object when the
config fits its family — binary and multiclass aliases require the `weight`
key to be present (its value may be Python `None`, giving the unweighted
loss) and raise `KeyError` when the key is absent; the regression-family
aliases resolve for any config; the focal names resolve (via the substring
fallback) exactly when no `weight` key is passed; and every name outside the
vocabulary raises the unsupported-objective `ValueError`. -/
theorem get_loss_function_resolution :
    (∀ name ∈ lossAliasesAt "binary", ∀ kw : LossKwargs, ∀ w,
        kw.weight = some w →
        get_loss_function kw name = Except.ok (some (LossObj.bceWithLogits w))) ∧
    (∀ name ∈ lossAliasesAt "multiclass", ∀ kw : LossKwargs, ∀ w,
        kw.weight = some w →
        get_loss_function kw name = Except.ok (some (LossObj.crossEntropy w))) ∧
    (∀ name, (name ∈ lossAliasesAt "binary" ∨ name ∈ lossAliasesAt "multiclass") →
        ∀ kw : LossKwargs, kw.weight = none →
        get_loss_function kw name = Except.error PyErr.keyError) ∧
    (∀ kw : LossKwargs,
        (∀ name ∈ lossAliasesAt "regression",
            get_loss_function kw name = Except.ok (some LossObj.mseLoss)) ∧
        (∀ name ∈ lossAliasesAt "mean_absolute_error",
            get_loss_function kw name = Except.ok (some LossObj.l1Loss)) ∧
        (∀ name ∈ lossAliasesAt "mean_squared_log_error",
            get_loss_function kw name = Except.ok (some LossObj.msleLoss)) ∧
        (∀ name ∈ lossAliasesAt "root_mean_squared_error",
            get_loss_function kw name = Except.ok (some LossObj.rmseLoss)) ∧
        (∀ name ∈ lossAliasesAt "root_mean_squared_log_error",
            get_loss_function kw name = Except.ok (some LossObj.rmsleLoss))) ∧
    (∀ kw : LossKwargs, kw.weight = none →
        get_loss_function kw "binary_focal_loss" =
          Except.ok (some (LossObj.focalLoss (kw.alpha.getD (1/4)) (kw.gamma.getD 1))) ∧
        get_loss_function kw "multiclass_focal_loss" =
          Except.ok (some (LossObj.focalLoss (kw.alpha.getD (1/4)) (kw.gamma.getD 1)))) ∧
    (∀ name, name ∉ objectiveVocab → ∀ kw : LossKwargs,
        get_loss_function kw name = Except.error PyErr.valueError) := by
  refine ⟨?_, ?_, ?_, ?_, ?_, ?_⟩
  · intro name hmem kw w hw
    fin_cases hmem <;>
      simp +decide [get_loss_function, kwargsWeight, Except.map, hw]
  · intro name hmem kw w hw
    fin_cases hmem <;>
      simp +decide [get_loss_function, kwargsWeight, Except.map, hw]
  · intro name hmem kw hw
    rcases hmem with hmem | hmem <;>
      fin_cases hmem <;>
        simp +decide [get_loss_function, kwargsWeight, Except.map, hw]
  · intro kw
    refine ⟨?_, ?_, ?_, ?_, ?_⟩ <;>
      · intro name hmem
        fin_cases hmem <;> simp +decide [get_loss_function]
  · intro kw hw
    constructor <;>
      simp +decide [get_loss_function, focalLossFromKwargs, Except.map, hw]
  · intro name hmem kw
    simp [get_loss_function, hmem]

/-- C3 witness: the amended resolution behaviour at concrete inputs. -/
theorem get_loss_function_resolution_witness :
    get_loss_function ⟨some (some [2]), none, none⟩ "logistic" =
      Except.ok (some (LossObj.bceWithLogits (some [2]))) ∧
    get_loss_function ⟨some (some [2]), none, none⟩ "cross_entropy" =
      Except.ok (some (LossObj.crossEntropy (some [2]))) ∧
    get_loss_function LossKwargs.empty "multiclass" = Except.error PyErr.keyError ∧
    get_loss_function LossKwargs.empty "l2" = Except.ok (some LossObj.mseLoss) ∧
    get_loss_function LossKwargs.empty "binary_focal_loss" =
      Except.ok (some (LossObj.focalLoss ((LossKwargs.empty).alpha.getD (1/4))
        ((LossKwargs.empty).gamma.getD 1))) ∧
    get_loss_function LossKwargs.empty "hinge" = Except.error PyErr.valueError :=
  ⟨get_loss_function_resolution.1 "logistic" (by decide) _ _ rfl,
   get_loss_function_resolution.2.1 "cross_entropy" (by decide) _ _ rfl,
   (get_loss_function_resolution.2.2.1 "multiclass" (Or.inr (by decide)) _ rfl),
   ((get_loss_function_resolution.2.2.2.1 LossKwargs.empty).1 "l2" (by decide)),
   (get_loss_function_resolution.2.2.2.2.1 LossKwargs.empty rfl).1,
   get_loss_function_resolution.2.2.2.2.2 "hinge" (by decide) LossKwargs.empty⟩

/-! ## Theorems about the custom regression losses -/

/-- C7: for non-negative predictions and targets, `MSLELoss` equals the mean
squared error of `log(x + 1)`-transformed inputs exactly, and `RMSLELoss` is
the square root of that same mean-squared-log-error. -/
theorem msle_rmsle_relation (p t : List ℝ)
    (hp : ∀ x ∈ p, 0 ≤ x) (ht : ∀ x ∈ t, 0 ≤ x) :
    MSLELoss p t =
      MSELoss (p.map (fun x => Real.log (x + 1)))
        (t.map (fun x => Real.log (x + 1))) ∧
    RMSLELoss p t = Real.sqrt (MSLELoss p t) :=
  ⟨rfl, rfl⟩

/-- C7 witness: the relation at the concrete non-negative inputs
`p = [1, 2]`, `t = [0, 3]`. -/
theorem msle_rmsle_relation_witness :
    MSLELoss [1, 2] [0, 3] =
      MSELoss (([1, 2] : List ℝ).map (fun x => Real.log (x + 1)))
        (([0, 3] : List ℝ).map (fun x => Real.log (x + 1))) ∧
    RMSLELoss [1, 2] [0, 3] = Real.sqrt (MSLELoss [1, 2] [0, 3]) :=
  msle_rmsle_relation [1, 2] [0, 3]
    (by intro x hx; fin_cases hx <;> norm_num)
    (by intro x hx; fin_cases hx <;> norm_num)

/-- The sum of squared differences is non-negative. -/
theorem sum_sq_diff_nonneg (p t : List ℝ) :
    0 ≤ (List.zipWith (fun a b => (a - b) ^ 2) p t).sum := by
  induction p generalizing t with
  | nil => simp
  | cons a as ih =>
      cases t with
      | nil => simp
      | cons b bs =>
          simp only [List.zipWith_cons_cons, List.sum_cons]
          exact add_nonneg (sq_nonneg _) (ih bs)

/-- C8: `RMSELoss` squared equals `MSELoss` on the same inputs (exactly, in
the real-number model), and `RMSELoss` is always non-negative. -/
theorem rmse_sq_eq_mse (p t : List ℝ) :
    RMSELoss p t ^ 2 = MSELoss p t ∧ 0 ≤ RMSELoss p t := by
  constructor
  · refine Real.sq_sqrt ?_
    exact div_nonneg (sum_sq_diff_nonneg p t) (Nat.cast_nonneg _)
  · exact Real.sqrt_nonneg _

/-! ## Theorem about the focal loss -/

/-- C6: on a single-column logit tensor (non-empty batch) with a valid
integer label vector, `FocalLoss.forward` computes exactly the specified
binary pipeline: the 2-column probability matrix with class-1 column
`sigmoid(logit)` and class-0 column `1 - sigmoid(logit)`, the one-hot
target, the modulating weight
`(alpha*t + (1-alpha)*(1-t)) * (1 - (p*t + (1-p)*(1-t)))^gamma` (a
stop-gradient constant, which at value level is the plain product), and the
mean over all elements of the weighted binary cross-entropy. -/
theorem focal_binary_forward_spec (alpha gamma : ℝ) (logits : List ℝ)
    (target : List ℕ) (hne : logits ≠ [])
    (hlab : ∀ l ∈ target, l < 2) (hlen : target.length = logits.length) :
    FocalLoss.forward ⟨alpha, gamma⟩ (logits.map (fun x => [x])) target =
      focalBinaryAsSpecified alpha gamma logits target := by
  have hT : target.map (eyeRow 2) =
      target.map
        (fun l => [if l = 0 then (1 : ℝ) else 0, if l = 1 then 1 else 0]) := by
    refine List.map_congr_left ?_
    intro l _
    rcases l with _ | _ | n <;> simp [eyeRow, List.range_succ]
  obtain ⟨a, as, rfl⟩ : ∃ a as, logits = a :: as := by
    cases logits with
    | nil => exact absurd rfl hne
    | cons a as => exact ⟨a, as, rfl⟩
  unfold FocalLoss.forward focalBinaryAsSpecified FocalLoss.get_weight
  simp only [matMap, List.map_cons, List.map_map, List.headD_cons,
    List.length_cons, List.length_nil, Nat.zero_add, if_pos, hT,
    Function.comp_def, List.map_nil, List.cons_append, List.nil_append]
  rfl

/-- C6 witness: the binary focal pipeline equality at logit `0` with label
`1` and the default hyperparameters. -/
theorem focal_binary_forward_spec_witness :
    FocalLoss.forward ⟨1/4, 1⟩ (([0] : List ℝ).map (fun x => [x])) [1] =
      focalBinaryAsSpecified (1/4) 1 [0] [1] :=
  focal_binary_forward_spec (1/4) 1 [0] [1] (by simp) (by decide) rfl

/-! ## Theorems about the model composer -/

/-- The wide-width check passes (trivially so when `wide` is absent). -/
def wideCheckOk (wide : Option WideComponent) (pred_dim : ℕ) : Prop :=
  ∀ w ∈ wide, w.wide_linear_weight_size1 = pred_dim

/-- The optional branch exposes `output_dim` (trivially so when absent). -/
def hasOutputDim (c : Option DeepComponent) : Prop :=
  ∀ x ∈ c, x.output_dim.isSome = true

/-- A passing wide check returns unit. -/
theorem checkWide_ok (wide : Option WideComponent) (pred_dim : ℕ)
    (h : wideCheckOk wide pred_dim) : checkWide wide pred_dim = Except.ok () := by
  rcases wide with _ | w
  · rfl
  · simp [checkWide, h w rfl]

/-- A passing `output_dim` check returns unit. -/
theorem checkOutputDim_ok (c : Option DeepComponent) (h : hasOutputDim c) :
    checkOutputDim c = Except.ok () := by
  rcases c with _ | c
  · rfl
  · simp [checkOutputDim, h c rfl]

/-- A failing wide check returns the `AssertionError`. -/
theorem checkWide_bad (w : WideComponent) (pred_dim : ℕ)
    (h : w.wide_linear_weight_size1 ≠ pred_dim) :
    checkWide (some w) pred_dim = Except.error PyErr.assertionError := by
  simp [checkWide, h]

/-- A missing `output_dim` attribute yields the `AttributeError`. -/
theorem checkOutputDim_missing (c : DeepComponent) (h : c.output_dim = none) :
    checkOutputDim (some c) = Except.error PyErr.attributeError := by
  simp [checkOutputDim, h]

/-- A user head whose input width misses the branch sum fails its check. -/
theorem checkHeadDims_bad (h : UserHead)
    (deeptabular deeptext deepimage : Option DeepComponent)
    (hne : h.firstParamSize1 ≠
      odSum deeptabular + odSum deeptext + odSum deepimage) :
    checkHeadDims (some h) deeptabular deeptext deepimage =
      Except.error PyErr.assertionError := by
  simp [checkHeadDims, hne]

/-- Adding a row of zeros elementwise is the identity. -/
theorem zipWith_add_replicate_zero : ∀ (r : List ℚ) (n : ℕ), r.length = n →
    List.zipWith (fun x y => x + y) (List.replicate n 0) r = r
  | [], _, _ => by simp
  | a :: as, n, h => by
      cases n with
      | zero => simp at h
      | succ k =>
          simp only [List.replicate_succ, List.zipWith_cons_cons, zero_add]
          rw [zipWith_add_replicate_zero as k (by simpa using h)]

/-- `zeros.add_(y) = y` when the zero tensor has `y`'s shape. -/
theorem matAdd_zeroMat : ∀ (y : Mat) (bs pd : ℕ), y.length = bs →
    (∀ r ∈ y, r.length = pd) → matAdd (zeroMat bs pd) y = y
  | [], bs, pd, h1, _ => by
      cases bs with
      | zero => rfl
      | succ k => simp at h1
  | r :: rs, bs, pd, h1, h2 => by
      cases bs with
      | zero => simp at h1
      | succ k =>
          have hr := zipWith_add_replicate_zero r pd (h2 r (by simp))
          have hrs := matAdd_zeroMat rs k pd (by simpa using h1)
            (fun s hs => h2 s (by simp [hs]))
          simp only [matAdd, zeroMat, List.replicate_succ,
            List.zipWith_cons_cons] at hrs ⊢
          rw [hr, hrs]

/-- C10: a composed model with all five components absent and no
`head_layers_dim` passes build-time validation, its forward on a non-empty
batch mapping returns the zero tensor of shape `(batch_size, pred_dim)` with
`batch_size` read from the first entry of the mapping, and its forward on an
empty mapping raises `IndexError`. -/
theorem forward_all_absent (mlp : List ℕ → Mat → Mat)
    (headOut tabProj textProj imgProj : LinLayer) (pred_dim : ℕ)
    (fresh : LinLayer) (k : String) (v : Mat) (rest : List (String × Mat)) :
    (WideDeep.build none none none none none none mlp headOut tabProj textProj
        imgProj pred_dim).bind
      (fun m => m.forward fresh ((k, v) :: rest)) =
      Except.ok (zeroMat v.length pred_dim) ∧
    (WideDeep.build none none none none none none mlp headOut tabProj textProj
        imgProj pred_dim).bind
      (fun m => m.forward fresh []) = Except.error PyErr.indexError := by
  constructor <;>
    simp [WideDeep.build, checkModelComponents, checkWide, checkOutputDim,
      checkHeadConflict, checkHeadNeedsDeep, checkHeadDims, WideDeep.forward,
      Except.bind, Except.map, Except.instMonad, Bind.bind, Pure.pure,
      Except.pure]

/-- C4: with only the wide branch, forward equals `wide(batch.wide)` exactly;
and with no wide branch and a single deep branch in no-head mode, forward
equals that branch's self-projected output exactly (the wide contribution
being the zero tensor of shape `(batch_size, pred_dim)`). -/
theorem forward_wide_only_single_branch (w : WideComponent) (c : DeepComponent)
    (d : ℕ) (mlp : List ℕ → Mat → Mat)
    (headOut tabProj textProj imgProj : LinLayer) (pred_dim : ℕ)
    (fresh : LinLayer) (xw xt : Mat)
    (hw : w.wide_linear_weight_size1 = pred_dim)
    (hc : c.output_dim = some d)
    (hrows : (linApply tabProj (c.forward xt)).length = xt.length)
    (hcols : ∀ r ∈ linApply tabProj (c.forward xt), r.length = pred_dim) :
    (WideDeep.build (some w) none none none none none mlp headOut tabProj
        textProj imgProj pred_dim).bind
      (fun m => m.forward fresh [("wide", xw)]) = Except.ok (w.forward xw) ∧
    (WideDeep.build none (some c) none none none none mlp headOut tabProj
        textProj imgProj pred_dim).bind
      (fun m => m.forward fresh [("deeptabular", xt)]) =
      Except.ok (linApply tabProj (c.forward xt)) := by
  constructor
  · simp [WideDeep.build, checkModelComponents, checkWide, checkOutputDim,
      checkHeadConflict, checkHeadNeedsDeep, checkHeadDims, WideDeep.forward,
      lookupX, List.lookup, Except.bind, Except.map, Except.instMonad,
      Bind.bind, Pure.pure, Except.pure, hw]
  · rw [show (linApply tabProj (c.forward xt)) =
        matAdd (zeroMat xt.length pred_dim) (linApply tabProj (c.forward xt))
      from (matAdd_zeroMat _ _ _ hrows hcols).symm]
    simp [WideDeep.build, checkModelComponents, checkWide, checkOutputDim,
      checkHeadConflict, checkHeadNeedsDeep, checkHeadDims, WideDeep.forward,
      lookupX, List.lookup, Except.bind, Except.map, Except.instMonad,
      Bind.bind, Pure.pure, Except.pure, hc, matAdd_zeroMat _ _ _ hrows hcols]

/-- A concrete identity deep branch advertising `output_dim = 1`. -/
def idComponent : DeepComponent := ⟨fun x => x, some 1⟩

/-- A concrete deep branch lacking the `output_dim` attribute. -/
def noOdComponent : DeepComponent := ⟨fun x => x, none⟩

/-- A concrete identity user head whose first parameter has `size(1) = 1`. -/
def idHead : UserHead := ⟨fun x => x, 1⟩

/-- A concrete user head whose declared input width `5` fits no branch sum. -/
def badHead : UserHead := ⟨fun x => x, 5⟩

/-- A concrete wide component of final output width 1. -/
def idWide : WideComponent := ⟨fun x => x, 1⟩

/-- A concrete wide component of final output width 2. -/
def wideBad : WideComponent := ⟨fun x => x, 2⟩

/-- Linear-layer parameters acting as the identity on width-1 rows. -/
def idLin : LinLayer := ⟨[[1]], [0]⟩

/-- Linear-layer parameters doubling a width-1 row. -/
def twoLin : LinLayer := ⟨[[2]], [0]⟩

/-- An external MLP stand-in that returns its input unchanged. -/
def mlpId : List ℕ → Mat → Mat := fun _ x => x

/-- C4 witness: the two forward equalities at concrete components. -/
theorem forward_wide_only_single_branch_witness :
    (WideDeep.build (some idWide) none none none none none mlpId idLin idLin
        idLin idLin 1).bind
      (fun m => m.forward twoLin [("wide", [[5]])]) =
      Except.ok (idWide.forward [[5]]) ∧
    (WideDeep.build none (some idComponent) none none none none mlpId idLin
        idLin idLin idLin 1).bind
      (fun m => m.forward twoLin [("deeptabular", [[3]])]) =
      Except.ok (linApply idLin (idComponent.forward [[3]])) :=
  forward_wide_only_single_branch idWide idComponent 1 mlpId idLin idLin idLin
    idLin 1 twoLin [[5]] [[3]] rfl rfl rfl
    (by intro r hr
        simp only [idComponent, idLin, linApply, dot, List.map_cons,
          List.map_nil, List.zipWith_cons_cons, List.zipWith_nil_right,
          List.mem_singleton] at hr
        subst hr
        rfl)

/-- C5: every listed mis-configuration makes `WideDeep.build` return the
corresponding configuration error synchronously (no model is produced, so
nothing is deferred to forward time): wide width ≠ `pred_dim`; a supplied
deep branch lacking `output_dim` (each of the three slots); both a user head
and `head_layers_dim`; `head_layers_dim` with no deep branch; a user head
whose declared input width differs from the sum of the supplied branches'
`output_dim`. -/
theorem build_config_errors (mlp : List ℕ → Mat → Mat)
    (headOut tabProj textProj imgProj : LinLayer) (pred_dim : ℕ) :
    (∀ (w : WideComponent) dt dx di dh hl,
        w.finalOutputWidth ≠ pred_dim →
        WideDeep.build (some w) dt dx di dh hl mlp headOut tabProj textProj
          imgProj pred_dim = Except.error PyErr.assertionError) ∧
    (∀ wide (c : DeepComponent) dx di dh hl,
        wideCheckOk wide pred_dim → c.output_dim = none →
        WideDeep.build wide (some c) dx di dh hl mlp headOut tabProj textProj
          imgProj pred_dim = Except.error PyErr.attributeError) ∧
    (∀ wide dt (c : DeepComponent) di dh hl,
        wideCheckOk wide pred_dim → hasOutputDim dt → c.output_dim = none →
        WideDeep.build wide dt (some c) di dh hl mlp headOut tabProj textProj
          imgProj pred_dim = Except.error PyErr.attributeError) ∧
    (∀ wide dt dx (c : DeepComponent) dh hl,
        wideCheckOk wide pred_dim → hasOutputDim dt → hasOutputDim dx →
        c.output_dim = none →
        WideDeep.build wide dt dx (some c) dh hl mlp headOut tabProj textProj
          imgProj pred_dim = Except.error PyErr.attributeError) ∧
    (∀ wide dt dx di (h : UserHead) (hs : List ℕ),
        wideCheckOk wide pred_dim → hasOutputDim dt → hasOutputDim dx →
        hasOutputDim di →
        WideDeep.build wide dt dx di (some h) (some hs) mlp headOut tabProj
          textProj imgProj pred_dim = Except.error PyErr.valueError) ∧
    (∀ wide (hs : List ℕ), wideCheckOk wide pred_dim →
        WideDeep.build wide none none none none (some hs) mlp headOut tabProj
          textProj imgProj pred_dim = Except.error PyErr.valueError) ∧
    (∀ wide dt dx di (h : UserHead),
        wideCheckOk wide pred_dim → hasOutputDim dt → hasOutputDim dx →
        hasOutputDim di →
        h.firstParamSize1 ≠ odSum dt + odSum dx + odSum di →
        WideDeep.build wide dt dx di (some h) none mlp headOut tabProj
          textProj imgProj pred_dim = Except.error PyErr.assertionError) := by
  refine ⟨?_, ?_, ?_, ?_, ?_, ?_, ?_⟩
  · intro w dt dx di dh hl hne
    simp only [WideComponent.finalOutputWidth] at hne
    simp [WideDeep.build, checkModelComponents, checkWide_bad w pred_dim hne,
      Except.bind, Except.instMonad, Bind.bind]
  · intro wide c dx di dh hl hwide hc
    simp [WideDeep.build, checkModelComponents,
      checkWide_ok wide pred_dim hwide, checkOutputDim_missing c hc,
      Except.bind, Except.instMonad, Bind.bind]
  · intro wide dt c di dh hl hwide hdt hc
    simp [WideDeep.build, checkModelComponents,
      checkWide_ok wide pred_dim hwide, checkOutputDim_ok dt hdt,
      checkOutputDim_missing c hc, Except.bind, Except.instMonad, Bind.bind]
  · intro wide dt dx c dh hl hwide hdt hdx hc
    simp [WideDeep.build, checkModelComponents,
      checkWide_ok wide pred_dim hwide, checkOutputDim_ok dt hdt,
      checkOutputDim_ok dx hdx, checkOutputDim_missing c hc, Except.bind,
      Except.instMonad, Bind.bind]
  · intro wide dt dx di h hs hwide hdt hdx hdi
    simp [WideDeep.build, checkModelComponents,
      checkWide_ok wide pred_dim hwide, checkOutputDim_ok dt hdt,
      checkOutputDim_ok dx hdx, checkOutputDim_ok di hdi, checkHeadConflict,
      Except.bind, Except.instMonad, Bind.bind]
  · intro wide hs hwide
    simp [WideDeep.build, checkModelComponents,
      checkWide_ok wide pred_dim hwide, checkOutputDim, checkHeadConflict,
      checkHeadNeedsDeep, Except.bind, Except.instMonad, Bind.bind]
  · intro wide dt dx di h hwide hdt hdx hdi hne
    simp [WideDeep.build, checkModelComponents,
      checkWide_ok wide pred_dim hwide, checkOutputDim_ok dt hdt,
      checkOutputDim_ok dx hdx, checkOutputDim_ok di hdi, checkHeadConflict,
      checkHeadNeedsDeep, checkHeadDims_bad h dt dx di hne, Except.bind,
      Except.instMonad, Bind.bind]

/-- C5 witness: each configuration error at a concrete mis-configuration. -/
theorem build_config_errors_witness :
    WideDeep.build (some wideBad) none none none none none mlpId idLin idLin
      idLin idLin 1 = Except.error PyErr.assertionError ∧
    WideDeep.build none (some noOdComponent) none none none none mlpId idLin
      idLin idLin idLin 1 = Except.error PyErr.attributeError ∧
    WideDeep.build none none (some noOdComponent) none none none mlpId idLin
      idLin idLin idLin 1 = Except.error PyErr.attributeError ∧
    WideDeep.build none none none (some noOdComponent) none none mlpId idLin
      idLin idLin idLin 1 = Except.error PyErr.attributeError ∧
    WideDeep.build none (some idComponent) none none (some idHead) (some [1])
      mlpId idLin idLin idLin idLin 1 = Except.error PyErr.valueError ∧
    WideDeep.build none none none none none (some [1]) mlpId idLin idLin idLin
      idLin 1 = Except.error PyErr.valueError ∧
    WideDeep.build none (some idComponent) none none (some badHead) none mlpId
      idLin idLin idLin idLin 1 = Except.error PyErr.assertionError :=
  ⟨(build_config_errors mlpId idLin idLin idLin idLin 1).1 wideBad none none
      none none none (by decide),
   (build_config_errors mlpId idLin idLin idLin idLin 1).2.1 none noOdComponent
      none none none none (by intro w hw; cases hw) rfl,
   (build_config_errors mlpId idLin idLin idLin idLin 1).2.2.1 none none
      noOdComponent none none none (by intro w hw; cases hw)
      (by intro x hx; cases hx) rfl,
   (build_config_errors mlpId idLin idLin idLin idLin 1).2.2.2.1 none none none
      noOdComponent none none (by intro w hw; cases hw)
      (by intro x hx; cases hx) (by intro x hx; cases hx) rfl,
   (build_config_errors mlpId idLin idLin idLin idLin 1).2.2.2.2.1 none
      (some idComponent) none none idHead [1] (by intro w hw; cases hw)
      (by intro x hx; cases hx; rfl) (by intro x hx; cases hx)
      (by intro x hx; cases hx),
   (build_config_errors mlpId idLin idLin idLin idLin 1).2.2.2.2.2.1 none [1]
      (by intro w hw; cases hw),
   (build_config_errors mlpId idLin idLin idLin idLin 1).2.2.2.2.2.2 none
      (some idComponent) none none badHead (by intro w hw; cases hw)
      (by intro x hx; cases hx; rfl) (by intro x hx; cases hx)
      (by intro x hx; cases hx) (by decide)⟩

/-- C1 counterexample: for a composed model with a (user-supplied) head, two
forward calls on the identical batch differ when the per-call freshly sampled
parameters of the `nn.Linear` created inside `forward` differ — the forward
computation does use freshly sampled parameters per call. -/
theorem forward_fresh_linear_cex :
    (WideDeep.build none (some idComponent) none none (some idHead) none mlpId
        idLin idLin idLin idLin 1).bind
      (fun m => m.forward idLin [("deeptabular", [[1]])]) ≠
    (WideDeep.build none (some idComponent) none none (some idHead) none mlpId
        idLin idLin idLin idLin 1).bind
      (fun m => m.forward twoLin [("deeptabular", [[1]])]) := by
  norm_num [WideDeep.build, checkModelComponents, checkWide, checkOutputDim,
    checkHeadConflict, checkHeadNeedsDeep, checkHeadDims, WideDeep.forward,
    idComponent, idHead, idLin, twoLin, mlpId, lookupX, List.lookup, zeroMat,
    matAdd, linApply, dot, catColsO, odSum, Except.bind, Except.map,
    Except.instMonad, Bind.bind, Pure.pure, Except.pure]

/-- C1 amended: for every composed model built without a head (neither
user-supplied nor declarative), forward is independent of the per-call fresh
linear-layer sample, so repeated calls on identical inputs give identical
outputs; when a head is present a freshly sampled linear layer is applied
each call, so outputs are not call-to-call reproducible. -/
theorem forward_no_head_deterministic (wide : Option WideComponent)
    (dt dx di : Option DeepComponent) (mlp : List ℕ → Mat → Mat)
    (headOut tabProj textProj imgProj : LinLayer) (pred_dim : ℕ)
    (m : WideDeep)
    (hm : WideDeep.build wide dt dx di none none mlp headOut tabProj textProj
      imgProj pred_dim = Except.ok m)
    (f1 f2 : LinLayer) (X : List (String × Mat)) :
    m.forward f1 X = m.forward f2 X := by
  unfold WideDeep.build at hm
  cases hc : checkModelComponents wide dt dx di none none pred_dim with
  | error e =>
      rw [hc] at hm
      simp [Except.bind, Bind.bind, Except.instMonad] at hm
  | ok u =>
      rw [hc] at hm
      simp only [Except.bind, Bind.bind, Except.instMonad, Except.pure,
        Pure.pure, Except.ok.injEq] at hm
      subst hm
      rfl

/-- The concrete no-head composed model produced by `WideDeep.build` from
`idComponent` with projection `idLin`. -/
def builtNoHeadEx : WideDeep :=
  ⟨1, none, some (fun x => linApply idLin (idComponent.forward x)), none, none,
    none⟩

/-- C1 witness: determinism of the concrete no-head model under two distinct
fresh samples. -/
theorem forward_no_head_deterministic_witness :
    builtNoHeadEx.forward idLin [("deeptabular", [[1]])] =
      builtNoHeadEx.forward twoLin [("deeptabular", [[1]])] :=
  forward_no_head_deterministic none (some idComponent) none none mlpId idLin
    idLin idLin idLin 1 builtNoHeadEx rfl idLin twoLin [("deeptabular", [[1]])]

/-- C2 counterexample: for a concrete model with a declarative head, forward
does not equal the wide contribution plus the internally built head applied
to the branch activation — the freshly created forward-time linear layer
changes the value. -/
theorem declarative_head_extra_linear_cex :
    (WideDeep.build none (some idComponent) none none none (some [1]) mlpId
        idLin idLin idLin idLin 1).bind
      (fun m => m.forward twoLin [("deeptabular", [[1]])]) ≠
    Except.ok (matAdd (zeroMat 1 1)
      (linApply idLin (mlpId [1, 1] (idComponent.forward [[1]])))) := by
  norm_num [WideDeep.build, checkModelComponents, checkWide, checkOutputDim,
    checkHeadConflict, checkHeadNeedsDeep, checkHeadDims, WideDeep.forward,
    idComponent, idLin, twoLin, mlpId, lookupX, List.lookup, zeroMat, matAdd,
    linApply, dot, catColsO, odSum, Except.bind, Except.map, Except.instMonad,
    Bind.bind, Pure.pure, Except.pure]


/-- The wide contribution exactly as the claim words it: `wide(batch.wide)`
when the wide branch is present, else the zero tensor of shape
`(batch_size, pred_dim)` where `batch_size` is the row count of the first
entry of the batch mapping (`firstRows`). -/
def wideContributionSpec (wide : Option WideComponent) (pred_dim : ℕ)
    (xw : Mat) (firstRows : ℕ) : Mat :=
  match wide with
  | some w => w.forward xw
  | none => zeroMat firstRows pred_dim

/-- The head input exactly as the claim words it: the activations of the
present deep branches on their batch slots, concatenated along the feature
axis in the fixed order tabular, text, image, skipping absent ones
(left-associated, as the code's running `torch.cat` produces it). -/
def concatPresentActivations (dtc dxc dic : Option DeepComponent)
    (xt xx xi : Mat) : Mat :=
  match dtc, dxc, dic with
  | some t, some x, some i =>
      matConcatCols (matConcatCols (t.forward xt) (x.forward xx)) (i.forward xi)
  | some t, some x, none => matConcatCols (t.forward xt) (x.forward xx)
  | some t, none, some i => matConcatCols (t.forward xt) (i.forward xi)
  | some t, none, none => t.forward xt
  | none, some x, some i => matConcatCols (x.forward xx) (i.forward xi)
  | none, some x, none => x.forward xx
  | none, none, some i => i.forward xi
  | none, none, none => []

/-- A batch mapping holding exactly the slots of the present components, in
the order wide, deeptabular, deeptext, deepimage. -/
def batchOf (wide : Option WideComponent) (dtc dxc dic : Option DeepComponent)
    (xw xt xx xi : Mat) : List (String × Mat) :=
  (match wide with | some _ => [("wide", xw)] | none => []) ++
  (match dtc with | some _ => [("deeptabular", xt)] | none => []) ++
  (match dxc with | some _ => [("deeptext", xx)] | none => []) ++
  (match dic with | some _ => [("deepimage", xi)] | none => [])

/-- Row count of the first entry of a batch mapping. -/
def firstEntryRows (X : List (String × Mat)) : ℕ :=
  ((X.headD ("", [])).2).length

/-- C2 amended: for every model built with a declarative head — wide present
or absent, any non-empty subset of the three deep branches present — forward
evaluates each present deep branch on its batch slot, concatenates the
activations in the fixed order tabular, text, image (skipping absent ones),
passes the result through the internally built head (whose final projection
to `pred_dim` is embedded as `head_out` after the MLP over the widths
`sum-of-output_dims :: head_layer_widths`), then applies one more freshly
sampled linear layer to the head output before adding the wide
contribution. -/
theorem declarative_head_forward (wide : Option WideComponent)
    (dtc dxc dic : Option DeepComponent) (hs : List ℕ)
    (mlp : List ℕ → Mat → Mat) (headOut tabProj textProj imgProj : LinLayer)
    (pred_dim : ℕ) (fresh : LinLayer) (xw xt xx xi : Mat)
    (hwide : wideCheckOk wide pred_dim)
    (hdt : hasOutputDim dtc) (hdx : hasOutputDim dxc) (hdi : hasOutputDim dic)
    (hsome : dtc.isSome ∨ dxc.isSome ∨ dic.isSome) :
    (WideDeep.build wide dtc dxc dic none (some hs) mlp headOut tabProj
        textProj imgProj pred_dim).bind
      (fun m => m.forward fresh (batchOf wide dtc dxc dic xw xt xx xi)) =
      Except.ok (matAdd
        (wideContributionSpec wide pred_dim xw
          (firstEntryRows (batchOf wide dtc dxc dic xw xt xx xi)))
        (linApply fresh (linApply headOut
          (mlp ((odSum dtc + odSum dxc + odSum dic) :: hs)
            (concatPresentActivations dtc dxc dic xt xx xi))))) := by
  rcases wide with _ | w <;> rcases dtc with _ | ct <;>
    rcases dxc with _ | cx <;> rcases dic with _ | ci <;>
      simp [WideDeep.build, checkModelComponents, checkWide_ok _ _ hwide,
        checkOutputDim_ok _ hdt, checkOutputDim_ok _ hdx,
        checkOutputDim_ok _ hdi, checkHeadConflict, checkHeadNeedsDeep,
        checkHeadDims, WideDeep.forward, batchOf, wideContributionSpec,
        firstEntryRows, concatPresentActivations, lookupX, List.lookup,
        catColsO, Except.bind, Except.map, Except.instMonad, Bind.bind,
        Pure.pure, Except.pure] <;>
      simp at hsome

/-- C2 witness: the amended forward formula at concrete components with the
wide branch and the tabular branch absent and the text and image branches
present, exercising the skip-absent concatenation and the zero wide
contribution. -/
theorem declarative_head_forward_witness :
    (WideDeep.build none none (some idComponent) (some idComponent) none
        (some [1]) mlpId idLin idLin idLin idLin 1).bind
      (fun m => m.forward twoLin
        (batchOf none none (some idComponent) (some idComponent) [[7]] [[9]]
          [[2]] [[3]])) =
      Except.ok (matAdd
        (wideContributionSpec none 1 [[7]]
          (firstEntryRows (batchOf none none (some idComponent)
            (some idComponent) [[7]] [[9]] [[2]] [[3]])))
        (linApply twoLin (linApply idLin
          (mlpId ((odSum none + odSum (some idComponent) +
              odSum (some idComponent)) :: [1])
            (concatPresentActivations none (some idComponent)
              (some idComponent) [[9]] [[2]] [[3]]))))) :=
  declarative_head_forward none none (some idComponent) (some idComponent) [1]
    mlpId idLin idLin idLin idLin 1 twoLin [[7]] [[9]] [[2]] [[3]]
    (by intro w hw; cases hw) (by intro x hx; cases hx)
    (by intro x hx; cases hx; rfl) (by intro x hx; cases hx; rfl)
    (Or.inr (Or.inl rfl))
